import Mathlib

/-!
Shallow embedding of the Ansible module `src/plugins/modules/google_storage_bucket.py`
(the current variant, with `versioning_enabled`).

The Google Cloud Storage client is an external collaborator (spec section 6); it is
modelled here as a `World` holding the single named bucket's remote state plus flags
that inject the failure cases the module's `try/except` blocks distinguish:
  - `reservedElsewhere` : the bucket name is taken globally, so `bucket.create`
    raises `Conflict`;
  - `scUpdateFails` / `verPatchFails` : the storage-class `bucket.update()` call,
    resp. the versioning `bucket.patch()` call, fails with an unexpected remote
    error (raised as an exception; the module never catches these).
A handle obtained from `storage_client.bucket(name)` is modelled, per the spec's
client contract, as reading the remote resource's current attributes; each
`assign-then-update()/patch()` idiom is one per-field update call.  `get_bucket`
is a fetch that raises `NotFound` when the bucket does not exist;
`bucket.delete()` raises `Conflict` when the bucket is non-empty and no force
flag is given, while `bucket.delete(force=True)` removes the bucket and its
objects.  A remote call that fails does not mutate the remote state.

Python dictionaries are embedded as structures; the `result` dictionary's
`versioning_enabled` key may be missing (it is only written on some paths), so
that field is an `Option Bool`.  Raised exceptions that escape the module are
`Except.error`; every embedded function returns the final remote state, the list
of remote calls it issued, and either the Python return triple
`(changed, errorMessage, result)` or the escaped exception.
-/

namespace GSB

/-- Remote state of the single named bucket, as held by the cloud system. -/
structure Bucket where
  storage_class : String
  location : String
  versioning_enabled : Bool
  /-- the bucket contains objects, so an unforced delete raises `Conflict` -/
  nonEmpty : Bool
deriving Repr, DecidableEq

/-- The remote system together with the injected failure conditions. -/
structure World where
  bucket : Option Bucket
  reservedElsewhere : Bool
  scUpdateFails : Bool
  verPatchFails : Bool
deriving Repr, DecidableEq

/-- Mutable-or-immutable bucket fields a per-field update call could target. -/
inductive BField
  | storage_class
  | versioning_enabled
  | location
deriving Repr, DecidableEq

/-- One remote API call issued by the module. -/
inductive Call
  | fetch (name : String)
  | create (project : Option String) (name : String) (storage_class : String)
      (location : String) (versioning_enabled : Bool)
  | updateField (name : String) (field : BField)
  | delete (name : String) (force : Bool)
deriving Repr, DecidableEq

/-- Whether a remote call mutates remote state (everything except a fetch). -/
def Call.isMutating : Call → Bool
  | .fetch _ => false
  | _ => true

/-- Whether a remote call is a per-field update of the `location` field. -/
def Call.isLocationUpdate : Call → Bool
  | .updateField _ f => f == BField.location
  | _ => false

/-- The `params` dictionary handed to the module functions.  `hasProjectKey`
records whether the dictionary contains the key `"project"` at all (the source
tests `'project' not in params`); `project` is that key's value, which may be
`None` even when the key is present. -/
structure Params where
  name : String
  hasProjectKey : Bool
  project : Option String
  state : String
  storage_class : String
  location : String
  versioning_enabled : Bool
  force : Bool
deriving Repr, DecidableEq

/-- The `result` dictionary built by `getBucket` and threaded through the
module.  `versioning_enabled` is `none` when the dictionary lacks that key. -/
structure BucketResult where
  name : String
  state : String
  storage_class : String
  versioning_enabled : Option Bool
  location : String
deriving Repr, DecidableEq

/-- Exceptions of the google client that the module's code distinguishes. -/
inductive Err
  | notFound
  | conflict
  | other
deriving Repr, DecidableEq

/-- Python return triple of the module functions: changed flag, error message,
result dictionary. -/
abbrev Ret := Bool × String × BucketResult

/-- Outcome of running a module function: final remote state, remote calls
issued, and the returned triple or an escaped exception. -/
abbrev Out := World × List Call × Except Err Ret

/-- `getBucket(params)`: initializes the result dictionary (four keys, empty
strings, no `versioning_enabled` key), sets `name`, then fetches the bucket,
catching `NotFound` as state `absent`. -/
def getBucket (params : Params) (w : World) : List Call × BucketResult :=
  match w.bucket with
  | some bucket =>
      ([Call.fetch params.name],
       { name := params.name, state := "present",
         storage_class := bucket.storage_class,
         versioning_enabled := some bucket.versioning_enabled,
         location := bucket.location })
  | none =>
      ([Call.fetch params.name],
       { name := params.name, state := "absent", storage_class := "",
         versioning_enabled := none, location := "" })

/-- `createBucket(params, result)`: guard on the `project` key, then a create
call; `Conflict` (name taken, or the bucket already exists) is caught and
reported; on success the bucket comes into existence with the requested
attributes and the result records state/storage class/location (but the
`versioning_enabled` key of `result` is not written). -/
def createBucket (params : Params) (result : BucketResult) (w : World) : Out :=
  if !params.hasProjectKey then
    (w, [], Except.ok (false, "project not defined, required when creating buckets", result))
  else if w.reservedElsewhere || w.bucket.isSome then
    (w, [Call.create params.project params.name params.storage_class params.location
           params.versioning_enabled],
     Except.ok (false, "Naming conflict: Bucket " ++ params.name ++ " exists elsewhere.", result))
  else
    ({ w with bucket := some { storage_class := params.storage_class,
                               location := params.location,
                               versioning_enabled := params.versioning_enabled,
                               nonEmpty := false } },
     [Call.create params.project params.name params.storage_class params.location
        params.versioning_enabled],
     Except.ok (true, "",
       { result with state := "present", storage_class := params.storage_class,
                     location := params.location }))

/-- Write the storage class of the remote bucket (effect of the storage-class
`bucket.update()` call). -/
def writeStorageClass (w : World) (sc : String) : World :=
  { w with bucket := w.bucket.map (fun b => { b with storage_class := sc }) }

/-- Write the versioning flag of the remote bucket (effect of the versioning
`bucket.patch()` call). -/
def writeVersioning (w : World) (v : Bool) : World :=
  { w with bucket := w.bucket.map (fun b => { b with versioning_enabled := v }) }

/-- Storage class read off the handle `storage_client.bucket(name)`, modelled
as the remote resource's current value (the client collaborator's contract). -/
def handleStorageClass (w : World) : String :=
  (w.bucket.map Bucket.storage_class).getD ""

/-- Versioning flag read off the handle `storage_client.bucket(name)`. -/
def handleVersioning (w : World) : Bool :=
  (w.bucket.map Bucket.versioning_enabled).getD false

/-- `updateBucket(params, result)`: guard on the `project` key; reads the
bucket handle's current storage class and versioning flag; returns unchanged
when both already match; otherwise performs the storage-class update call and
then the versioning patch call, each only when its field differs, with a
failing call raising an exception that escapes (the source has no handler).
The two sequential `if` statements of the source are unfolded into nested
branches here; the final `result` assignments copy the handle's values. -/
def updateBucket (params : Params) (result : BucketResult) (w : World) : Out :=
  if !params.hasProjectKey then
    (w, [], Except.ok (false, "project not defined, required when creating buckets", result))
  else if handleStorageClass w == params.storage_class &&
      handleVersioning w == params.versioning_enabled then
    (w, [], Except.ok (false, "", result))
  else if handleStorageClass w != params.storage_class then
    if w.scUpdateFails then
      (w, [Call.updateField params.name BField.storage_class], Except.error Err.other)
    else if handleVersioning w != params.versioning_enabled then
      if w.verPatchFails then
        (writeStorageClass w params.storage_class,
         [Call.updateField params.name BField.storage_class,
          Call.updateField params.name BField.versioning_enabled],
         Except.error Err.other)
      else
        (writeVersioning (writeStorageClass w params.storage_class) params.versioning_enabled,
         [Call.updateField params.name BField.storage_class,
          Call.updateField params.name BField.versioning_enabled],
         Except.ok (true, "",
           { result with storage_class := params.storage_class,
                         versioning_enabled := some params.versioning_enabled }))
    else
      (writeStorageClass w params.storage_class,
       [Call.updateField params.name BField.storage_class],
       Except.ok (true, "",
         { result with storage_class := params.storage_class,
                       versioning_enabled := some (handleVersioning w) }))
  else if handleVersioning w != params.versioning_enabled then
    if w.verPatchFails then
      (w, [Call.updateField params.name BField.versioning_enabled], Except.error Err.other)
    else
      (writeVersioning w params.versioning_enabled,
       [Call.updateField params.name BField.versioning_enabled],
       Except.ok (true, "",
         { result with storage_class := handleStorageClass w,
                       versioning_enabled := some params.versioning_enabled }))
  else
    (w, [], Except.ok (true, "",
      { result with storage_class := handleStorageClass w,
                    versioning_enabled := some (handleVersioning w) }))

/-- `deleteBucket(params, result)`: fetches the bucket, catching `NotFound` as
an idempotent no-op; with `force` the delete always succeeds; without it a
non-empty bucket raises `Conflict`, caught and reported with state `present`. -/
def deleteBucket (params : Params) (result : BucketResult) (w : World) : Out :=
  match w.bucket with
  | none =>
      (w, [Call.fetch params.name],
       Except.ok (false, "", { result with state := "absent" }))
  | some bucket =>
      if params.force then
        ({ w with bucket := none },
         [Call.fetch params.name, Call.delete params.name true],
         Except.ok (true, "", { result with state := "absent" }))
      else if bucket.nonEmpty then
        (w, [Call.fetch params.name, Call.delete params.name false],
         Except.ok (false,
           "Object conflict: Bucket " ++ params.name ++ " is not empty. Use force: true to override",
           { result with state := "present" }))
      else
        ({ w with bucket := none },
         [Call.fetch params.name, Call.delete params.name false],
         Except.ok (true, "", { result with state := "absent" }))

/-- `bucketPresent(params, check)`: fetch, then for an existing bucket either
report the check-mode changed prediction (the source combines the two field
comparisons with `and`) or update when a mutable field differs; for an absent
bucket either synthesize the predicted result from `params` (check mode) or
create. -/
def bucketPresent (params : Params) (check : Bool) (w : World) : Out :=
  match getBucket params w with
  | (fetchCalls, result) =>
    if result.state == "present" then
      if check then
        (w, fetchCalls,
         Except.ok ((params.storage_class != result.storage_class) &&
             (some params.versioning_enabled != result.versioning_enabled), "", result))
      else if result.storage_class == params.storage_class &&
          result.versioning_enabled == some params.versioning_enabled then
        (w, fetchCalls, Except.ok (false, "", result))
      else
        match updateBucket params result w with
        | (w1, calls, out) => (w1, fetchCalls ++ calls, out)
    else
      if check then
        (w, fetchCalls,
         Except.ok (true, "",
           { name := params.name, state := params.state,
             storage_class := params.storage_class,
             versioning_enabled := some params.versioning_enabled,
             location := params.location }))
      else
        match createBucket params result w with
        | (w1, calls, out) => (w1, fetchCalls ++ calls, out)

/-- `bucketAbsent(params, check)`: fetch, then report no change when already
absent (both modes), or synthesize the predicted result (check mode), or
delete. -/
def bucketAbsent (params : Params) (check : Bool) (w : World) : Out :=
  match getBucket params w with
  | (fetchCalls, result) =>
    if result.state == "absent" then
      if check then
        (w, fetchCalls, Except.ok (false, "", result))
      else
        (w, fetchCalls, Except.ok (false, "", result))
    else
      if check then
        (w, fetchCalls,
         Except.ok (true, "",
           { name := params.name, state := params.state,
             storage_class := params.storage_class,
             versioning_enabled := some params.versioning_enabled,
             location := params.location }))
      else
        match deleteBucket params result w with
        | (w1, calls, out) => (w1, fetchCalls ++ calls, out)

/-- The `stateMachine` dictionary dispatch of `run_module`: `"present"` maps to
`bucketPresent`, `"absent"` to `bucketAbsent`; any other key is unreachable
because `AnsibleModule` validates `state` against its `choices` (a lookup there
would raise, modelled as an escaped exception). -/
def runInvocation (params : Params) (check : Bool) (w : World) : Out :=
  if params.state == "present" then bucketPresent params check w
  else if params.state == "absent" then bucketAbsent params check w
  else (w, [], Except.error Err.other)

/-- The caller-supplied module arguments; `none` means the caller did not
supply the option. -/
structure ModuleArgs where
  name : String
  project : Option String
  state : Option String
  storage_class : Option String
  location : Option String
  versioning_enabled : Option Bool
  force : Option Bool
deriving Repr, DecidableEq

/-- `AnsibleModule` argument parsing per the module's `argument_spec`: every
declared option becomes a key of `module.params`, taking its declared default
when unsupplied.  In particular `project` has default `None`, so the
`"project"` key is always present even when the caller supplied no project. -/
def buildParams (args : ModuleArgs) : Params :=
  { name := args.name
    hasProjectKey := true
    project := args.project
    state := args.state.getD "present"
    storage_class := args.storage_class.getD "STANDARD"
    location := args.location.getD "us"
    versioning_enabled := args.versioning_enabled.getD false
    force := args.force.getD false }

/-- `run_module`: parse the arguments, then dispatch through the state
machine. -/
def runModule (args : ModuleArgs) (check : Bool) (w : World) : Out :=
  runInvocation (buildParams args) check w

/-- The changed flag of an outcome's returned triple, when one was returned. -/
def changedOf (o : Out) : Option Bool :=
  match o.2.2 with
  | Except.ok (c, _, _) => some c
  | Except.error _ => none

/-! Helper lemmas: branch-by-branch facts about each module function. -/

/-- Every `createBucket` return that carries an error message has changed=false. -/
theorem createBucket_error_unchanged (params : Params) (result : BucketResult) (w : World)
    (c : Bool) (m : String) (r' : BucketResult)
    (h : (createBucket params result w).2.2 = Except.ok (c, m, r')) (hm : m ≠ "") :
    c = false := by
  unfold createBucket at h
  split at h
  · simp_all
  · split at h <;> simp_all

/-- Every `updateBucket` return that carries an error message has changed=false. -/
theorem updateBucket_error_unchanged (params : Params) (result : BucketResult) (w : World)
    (c : Bool) (m : String) (r' : BucketResult)
    (h : (updateBucket params result w).2.2 = Except.ok (c, m, r')) (hm : m ≠ "") :
    c = false := by
  unfold updateBucket at h
  split at h
  · simp_all
  · split at h
    · simp_all
    · split at h
      · split at h
        · simp_all
        · split at h
          · split at h <;> simp_all
          · simp_all
      · split at h
        · split at h <;> simp_all
        · simp_all

/-- Every `deleteBucket` return that carries an error message has changed=false. -/
theorem deleteBucket_error_unchanged (params : Params) (result : BucketResult) (w : World)
    (c : Bool) (m : String) (r' : BucketResult)
    (h : (deleteBucket params result w).2.2 = Except.ok (c, m, r')) (hm : m ≠ "") :
    c = false := by
  unfold deleteBucket at h
  split at h
  · simp_all
  · split at h
    · simp_all
    · split at h <;> simp_all

/-- Every `bucketPresent` return that carries an error message has changed=false. -/
theorem bucketPresent_error_unchanged (params : Params) (check : Bool) (w : World)
    (c : Bool) (m : String) (r' : BucketResult)
    (h : (bucketPresent params check w).2.2 = Except.ok (c, m, r')) (hm : m ≠ "") :
    c = false := by
  unfold bucketPresent at h
  split at h
  next fetchCalls result heq =>
  split at h
  · split at h
    · simp_all
    · split at h
      · simp_all
      · split at h
        next w1 calls out hu =>
        refine updateBucket_error_unchanged params result w c m r' ?_ hm
        rw [hu]
        exact h
  · split at h
    · simp_all
    · split at h
      next w1 calls out hu =>
      refine createBucket_error_unchanged params result w c m r' ?_ hm
      rw [hu]
      exact h

/-- Every `bucketAbsent` return that carries an error message has changed=false. -/
theorem bucketAbsent_error_unchanged (params : Params) (check : Bool) (w : World)
    (c : Bool) (m : String) (r' : BucketResult)
    (h : (bucketAbsent params check w).2.2 = Except.ok (c, m, r')) (hm : m ≠ "") :
    c = false := by
  unfold bucketAbsent at h
  split at h
  next fetchCalls result heq =>
  split at h
  · split at h <;> simp_all
  · split at h
    · simp_all
    · split at h
      next w1 calls out hu =>
      refine deleteBucket_error_unchanged params result w c m r' ?_ hm
      rw [hu]
      exact h

/-- Claim C3: for every invocation, a returned triple that carries a non-empty
error message has changed=false: no return path reports changed=true together
with an error. -/
theorem error_implies_unchanged (params : Params) (check : Bool) (w : World)
    (c : Bool) (m : String) (r' : BucketResult)
    (h : (runInvocation params check w).2.2 = Except.ok (c, m, r')) (hm : m ≠ "") :
    c = false := by
  unfold runInvocation at h
  split at h
  · exact bucketPresent_error_unchanged params check w c m r' h hm
  · split at h
    · exact bucketAbsent_error_unchanged params check w c m r' h hm
    · simp_all

/-- `createBucket` never issues a location update call. -/
theorem createBucket_no_location_update (params : Params) (result : BucketResult) (w : World) :
    ((createBucket params result w).2.1).all (fun c => !c.isLocationUpdate) = true := by
  unfold createBucket
  split
  · rfl
  · split <;> simp [Call.isLocationUpdate]

/-- `updateBucket` never issues a location update call. -/
theorem updateBucket_no_location_update (params : Params) (result : BucketResult) (w : World) :
    ((updateBucket params result w).2.1).all (fun c => !c.isLocationUpdate) = true := by
  unfold updateBucket
  split
  · rfl
  · split
    · rfl
    · split
      · split
        · simp [Call.isLocationUpdate]
        · split
          · split <;> simp [Call.isLocationUpdate]
          · simp [Call.isLocationUpdate]
      · split
        · split <;> simp [Call.isLocationUpdate]
        · rfl

/-- `deleteBucket` never issues a location update call. -/
theorem deleteBucket_no_location_update (params : Params) (result : BucketResult) (w : World) :
    ((deleteBucket params result w).2.1).all (fun c => !c.isLocationUpdate) = true := by
  unfold deleteBucket
  split
  · simp [Call.isLocationUpdate]
  · split
    · simp [Call.isLocationUpdate]
    · split <;> simp [Call.isLocationUpdate]

/-- `getBucket` only issues a fetch. -/
theorem getBucket_no_location_update (params : Params) (w : World) :
    ((getBucket params w).1).all (fun c => !c.isLocationUpdate) = true := by
  unfold getBucket
  split <;> simp [Call.isLocationUpdate]

/-- `bucketPresent` never issues a location update call. -/
theorem bucketPresent_no_location_update (params : Params) (check : Bool) (w : World) :
    ((bucketPresent params check w).2.1).all (fun c => !c.isLocationUpdate) = true := by
  unfold bucketPresent
  split
  next fetchCalls result heq =>
  have hf : fetchCalls.all (fun c => !c.isLocationUpdate) = true := by
    have := getBucket_no_location_update params w
    rw [heq] at this
    exact this
  split
  · split
    · exact hf
    · split
      · exact hf
      · split
        next w1 calls out hu =>
        have hc : calls.all (fun c => !c.isLocationUpdate) = true := by
          have := updateBucket_no_location_update params result w
          rw [hu] at this
          exact this
        simp [List.all_append, hf, hc]
  · split
    · exact hf
    · split
      next w1 calls out hu =>
      have hc : calls.all (fun c => !c.isLocationUpdate) = true := by
        have := createBucket_no_location_update params result w
        rw [hu] at this
        exact this
      simp [List.all_append, hf, hc]

/-- `bucketAbsent` never issues a location update call. -/
theorem bucketAbsent_no_location_update (params : Params) (check : Bool) (w : World) :
    ((bucketAbsent params check w).2.1).all (fun c => !c.isLocationUpdate) = true := by
  unfold bucketAbsent
  split
  next fetchCalls result heq =>
  have hf : fetchCalls.all (fun c => !c.isLocationUpdate) = true := by
    have := getBucket_no_location_update params w
    rw [heq] at this
    exact this
  split
  · split <;> exact hf
  · split
    · exact hf
    · split
      next w1 calls out hu =>
      have hc : calls.all (fun c => !c.isLocationUpdate) = true := by
        have := deleteBucket_no_location_update params result w
        rw [hu] at this
        exact this
      simp [List.all_append, hf, hc]

/-- Claim C8: no code path ever issues a remote update call for the location
field: for every specification, mode and remote state, every remote call of
the invocation is something other than a location update. -/
theorem no_location_update (params : Params) (check : Bool) (w : World) :
    ((runInvocation params check w).2.1).all (fun c => !c.isLocationUpdate) = true := by
  unfold runInvocation
  split
  · exact bucketPresent_no_location_update params check w
  · split
    · exact bucketAbsent_no_location_update params check w
    · rfl

/-- The result dictionary built by `getBucket` carries the specification's name. -/
theorem getBucket_name (params : Params) (w : World) :
    ((getBucket params w).2).name = params.name := by
  unfold getBucket
  split <;> rfl

/-- `createBucket` never rewrites the result dictionary's name. -/
theorem createBucket_name (params : Params) (result : BucketResult) (w : World)
    (c : Bool) (m : String) (r' : BucketResult)
    (h : (createBucket params result w).2.2 = Except.ok (c, m, r')) :
    r'.name = result.name := by
  unfold createBucket at h
  split at h
  · simp_all
  · split at h
    · simp_all
    · simp_all
      rw [← h.2.2]

/-- `updateBucket` never rewrites the result dictionary's name. -/
theorem updateBucket_name (params : Params) (result : BucketResult) (w : World)
    (c : Bool) (m : String) (r' : BucketResult)
    (h : (updateBucket params result w).2.2 = Except.ok (c, m, r')) :
    r'.name = result.name := by
  unfold updateBucket at h
  split at h
  · simp_all
  · split at h
    · simp_all
    · split at h
      · split at h
        · simp_all
        · split at h
          · split at h
            · simp_all
            · simp_all
              rw [← h.2.2]
          · simp_all
            rw [← h.2.2]
      · split at h
        · split at h
          · simp_all
          · simp_all
            rw [← h.2.2]
        · simp_all

/-- `deleteBucket` never rewrites the result dictionary's name. -/
theorem deleteBucket_name (params : Params) (result : BucketResult) (w : World)
    (c : Bool) (m : String) (r' : BucketResult)
    (h : (deleteBucket params result w).2.2 = Except.ok (c, m, r')) :
    r'.name = result.name := by
  unfold deleteBucket at h
  split at h
  · simp_all
    rw [← h.2.2]
  · split at h
    · simp_all
      rw [← h.2.2]
    · split at h
      · simp_all
        rw [← h.2.2]
      · simp_all
        rw [← h.2.2]

/-- `bucketPresent` always returns a result dictionary named after the
specification. -/
theorem bucketPresent_name (params : Params) (check : Bool) (w : World)
    (c : Bool) (m : String) (r' : BucketResult)
    (h : (bucketPresent params check w).2.2 = Except.ok (c, m, r')) :
    r'.name = params.name := by
  unfold bucketPresent at h
  split at h
  next fetchCalls result heq =>
  have hname : result.name = params.name := by
    have := getBucket_name params w
    rw [heq] at this
    exact this
  split at h
  · split at h
    · simp_all
    · split at h
      · simp_all
      · split at h
        next w1 calls out hu =>
        have : r'.name = result.name := by
          refine updateBucket_name params result w c m r' ?_
          rw [hu]
          exact h
        rw [this, hname]
  · split at h
    · simp_all
      rw [← h.2.2]
    · split at h
      next w1 calls out hu =>
      have : r'.name = result.name := by
        refine createBucket_name params result w c m r' ?_
        rw [hu]
        exact h
      rw [this, hname]

/-- `bucketAbsent` always returns a result dictionary named after the
specification. -/
theorem bucketAbsent_name (params : Params) (check : Bool) (w : World)
    (c : Bool) (m : String) (r' : BucketResult)
    (h : (bucketAbsent params check w).2.2 = Except.ok (c, m, r')) :
    r'.name = params.name := by
  unfold bucketAbsent at h
  split at h
  next fetchCalls result heq =>
  have hname : result.name = params.name := by
    have := getBucket_name params w
    rw [heq] at this
    exact this
  split at h
  · split at h <;> simp_all
  · split at h
    · simp_all
      rw [← h.2.2]
    · split at h
      next w1 calls out hu =>
      have : r'.name = result.name := by
        refine deleteBucket_name params result w c m r' ?_
        rw [hu]
        exact h
      rw [this, hname]

/-- Claim C10: for every invocation (any target state, any observed state,
preview or apply, success or failure), the name field of the returned result
dictionary equals the name of the specification. -/
theorem result_name_matches (params : Params) (check : Bool) (w : World)
    (c : Bool) (m : String) (r' : BucketResult)
    (h : (runInvocation params check w).2.2 = Except.ok (c, m, r')) :
    r'.name = params.name := by
  unfold runInvocation at h
  split at h
  · exact bucketPresent_name params check w c m r' h
  · split at h
    · exact bucketAbsent_name params check w c m r' h
    · simp_all

/-- Specification targeting absence of bucket b6. -/
def c6Params : Params :=
  { name := "b6", hasProjectKey := true, project := none, state := "absent",
    storage_class := "STANDARD", location := "us", versioning_enabled := false, force := false }

/-- A non-empty bucket. -/
def c6Bucket : Bucket :=
  { storage_class := "STANDARD", location := "us", versioning_enabled := false, nonEmpty := true }

/-- A quiet world: no failure injected. -/
def quietWorld (b : Option Bucket) : World :=
  { bucket := b, reservedElsewhere := false, scUpdateFails := false, verPatchFails := false }

/-- A world holding the non-empty bucket b6. -/
def c6World : World := quietWorld (some c6Bucket)

/-- Specification targeting absence of bucket b7. -/
def c7Params : Params :=
  { name := "b7", hasProjectKey := true, project := none, state := "absent",
    storage_class := "STANDARD", location := "us", versioning_enabled := false, force := false }

/-- The fetched result for an absent bucket b7. -/
def c7Result : BucketResult :=
  { name := "b7", state := "absent", storage_class := "",
    versioning_enabled := none, location := "" }

/-- Claim C6: an apply-mode delete of an existing non-empty bucket returns,
without force, changed=false together with the conflict message naming the
bucket and instructing the caller to use force, with the result state still
present; with force it returns changed=true and no error. -/
theorem force_delete_gate (params : Params) (w : World) (b : Bucket)
    (hs : params.state = "absent") (hb : w.bucket = some b) (hne : b.nonEmpty = true) :
    (runInvocation { params with force := false } false w).2.2 =
      Except.ok (false,
        "Object conflict: Bucket " ++ params.name ++ " is not empty. Use force: true to override",
        { name := params.name, state := "present", storage_class := b.storage_class,
          versioning_enabled := some b.versioning_enabled, location := b.location }) ∧
    (runInvocation { params with force := true } false w).2.2 =
      Except.ok (true, "",
        { name := params.name, state := "absent", storage_class := b.storage_class,
          versioning_enabled := some b.versioning_enabled, location := b.location }) := by
  constructor <;>
    simp [runInvocation, bucketAbsent, getBucket, deleteBucket, hs, hb, hne]

/-- Claim C6 witness at a concrete non-empty bucket. -/
theorem force_delete_gate_witness :
    (runInvocation { c6Params with force := false } false c6World).2.2 =
      Except.ok (false,
        "Object conflict: Bucket b6 is not empty. Use force: true to override",
        { name := "b6", state := "present", storage_class := "STANDARD",
          versioning_enabled := some false, location := "us" }) ∧
    (runInvocation { c6Params with force := true } false c6World).2.2 =
      Except.ok (true, "",
        { name := "b6", state := "absent", storage_class := "STANDARD",
          versioning_enabled := some false, location := "us" }) :=
  force_delete_gate c6Params c6World c6Bucket (by rfl) (by rfl) (by rfl)

/-- Claim C7: with target state absent and the bucket not existing, the
invocation returns changed=false and no error in both preview and apply mode;
and `deleteBucket` itself, finding the bucket absent at delete time, also
returns changed=false and no error. -/
theorem absent_delete_idempotent (params : Params) (check : Bool) (w : World) (r0 : BucketResult)
    (hs : params.state = "absent") (hb : w.bucket = none) :
    (runInvocation params check w).2.2 =
      Except.ok (false, "",
        { name := params.name, state := "absent", storage_class := "",
          versioning_enabled := none, location := "" }) ∧
    (deleteBucket params r0 w).2.2 = Except.ok (false, "", { r0 with state := "absent" }) := by
  constructor
  · cases check <;> simp [runInvocation, bucketAbsent, getBucket, hs, hb]
  · simp [deleteBucket, hb]

/-- Claim C7 witness at a concrete absent bucket, in both modes. -/
theorem absent_delete_idempotent_witness :
    ((runInvocation c7Params true (quietWorld none)).2.2 =
        Except.ok (false, "", c7Result) ∧
      (deleteBucket c7Params c7Result (quietWorld none)).2.2 =
        Except.ok (false, "", { c7Result with state := "absent" })) ∧
    ((runInvocation c7Params false (quietWorld none)).2.2 =
        Except.ok (false, "", c7Result) ∧
      (deleteBucket c7Params c7Result (quietWorld none)).2.2 =
        Except.ok (false, "", { c7Result with state := "absent" })) :=
  ⟨absent_delete_idempotent c7Params true (quietWorld none) c7Result (by rfl) (by rfl),
   absent_delete_idempotent c7Params false (quietWorld none) c7Result (by rfl) (by rfl)⟩

/-- Specification targeting absence of the non-empty bucket b3 without force. -/
def c3Params : Params :=
  { name := "b3", hasProjectKey := true, project := none, state := "absent",
    storage_class := "STANDARD", location := "us", versioning_enabled := false, force := false }

/-- A world holding a non-empty bucket b3. -/
def c3World : World :=
  { bucket := some { storage_class := "STANDARD", location := "us",
                     versioning_enabled := false, nonEmpty := true },
    reservedElsewhere := false, scUpdateFails := false, verPatchFails := false }

/-- The conflict message the delete of non-empty b3 produces. -/
def c3Msg : String := "Object conflict: Bucket b3 is not empty. Use force: true to override"

/-- The result of the failed delete of non-empty b3. -/
def c3Result : BucketResult :=
  { name := "b3", state := "present", storage_class := "STANDARD",
    versioning_enabled := some false, location := "us" }

/-- Claim C3 witness at the concrete delete-conflict return. -/
theorem error_implies_unchanged_witness :
    (runInvocation c3Params false c3World).2.2 = Except.ok (false, c3Msg, c3Result) ∧
    c3Msg ≠ "" ∧ (false : Bool) = false :=
  ⟨by rfl, by decide,
   error_implies_unchanged c3Params false c3World false c3Msg c3Result (by rfl) (by decide)⟩

/-- Specification of bucket b10, target present. -/
def c10Params : Params :=
  { name := "b10", hasProjectKey := true, project := some "p", state := "present",
    storage_class := "STANDARD", location := "us", versioning_enabled := false, force := false }

/-- Predicted result of the preview create for b10. -/
def c10Result : BucketResult :=
  { name := "b10", state := "present", storage_class := "STANDARD",
    versioning_enabled := some false, location := "us" }

/-- Claim C10 witness at a concrete preview-create return. -/
theorem result_name_matches_witness :
    (runInvocation c10Params true
        { bucket := none, reservedElsewhere := false,
          scUpdateFails := false, verPatchFails := false }).2.2 =
      Except.ok (true, "", c10Result) ∧
    c10Result.name = c10Params.name :=
  ⟨by rfl,
   result_name_matches c10Params true
     { bucket := none, reservedElsewhere := false, scUpdateFails := false, verPatchFails := false }
     true "" c10Result (by rfl)⟩

/-- Claim C4 amended: in an apply-mode update where both mutable fields
differ, if the storage-class update call succeeds and the versioning patch
call then fails, the invocation returns no (changed, error, result) triple at
all: the remote error escapes as an uncaught exception, and the remote bucket
is left in the mixed state with the storage class already updated and the
versioning flag untouched. -/
theorem partial_update_failure_propagates (params : Params) (w : World) (b : Bucket)
    (hs : params.state = "present") (hk : params.hasProjectKey = true)
    (hb : w.bucket = some b)
    (hsc : b.storage_class ≠ params.storage_class)
    (hver : b.versioning_enabled ≠ params.versioning_enabled)
    (h1 : w.scUpdateFails = false) (h2 : w.verPatchFails = true) :
    (runInvocation params false w).2.2 = Except.error Err.other ∧
    (runInvocation params false w).1.bucket =
      some { b with storage_class := params.storage_class } := by
  constructor <;>
    simp [runInvocation, bucketPresent, getBucket, updateBucket, handleStorageClass,
      handleVersioning, writeStorageClass, hs, hk, hb, h1, h2, hsc, hver]

/-- A present-target run against a bucket that already matches the
specification's mutable fields is a no-op: changed=false, no error, no
remote mutation. -/
theorem second_run_noop_present (params : Params) (w1 : World) (b' : Bucket)
    (hs : params.state = "present") (hb : w1.bucket = some b')
    (hsc : b'.storage_class = params.storage_class)
    (hver : b'.versioning_enabled = params.versioning_enabled) :
    runInvocation params false w1 =
      (w1, [Call.fetch params.name],
       Except.ok (false, "",
         { name := params.name, state := "present",
           storage_class := params.storage_class,
           versioning_enabled := some params.versioning_enabled,
           location := b'.location })) := by
  simp [runInvocation, bucketPresent, getBucket, hs, hb, hsc, hver]

/-- An absent-target run against an absent bucket is a no-op. -/
theorem second_run_noop_absent (params : Params) (w1 : World)
    (hs : params.state = "absent") (hb : w1.bucket = none) :
    runInvocation params false w1 =
      (w1, [Call.fetch params.name],
       Except.ok (false, "",
         { name := params.name, state := "absent", storage_class := "",
           versioning_enabled := none, location := "" })) := by
  simp [runInvocation, bucketAbsent, getBucket, hs, hb]

/-! Further concrete inputs used to evaluate the module's behaviour. -/

/-- An existing empty bucket with STANDARD class, versioning off. -/
def standardBucket : Bucket :=
  { storage_class := "STANDARD", location := "us", versioning_enabled := false, nonEmpty := false }

/-- A specification asking for NEARLINE on bucket b1 (versioning off, the default). -/
def c1Params : Params :=
  { name := "b1", hasProjectKey := true, project := some "p", state := "present",
    storage_class := "NEARLINE", location := "us", versioning_enabled := false, force := false }

/-- Claim C1: the claim asserts preview/apply agreement for every Specification
and starting state; at the concrete state where the bucket exists with
storage class STANDARD and versioning off while the specification asks for
NEARLINE with versioning off, the preview run predicts changed=false (the
source combines the two field diffs with a logical and) while the apply run
from the same state returns changed=true, so the code diverges from the
claim at this input. -/
theorem preview_apply_disagree_on_single_field_diff :
    changedOf (runInvocation c1Params true (quietWorld (some standardBucket))) = some false ∧
    changedOf (runInvocation c1Params false (quietWorld (some standardBucket))) = some true := by
  decide

/-- Same shape of specification for bucket b2. -/
def c2Params : Params :=
  { name := "b2", hasProjectKey := true, project := some "p", state := "present",
    storage_class := "NEARLINE", location := "us", versioning_enabled := false, force := false }

/-- Claim C2: the claim asserts that a preview run with a non-empty diff
returns changed=true and no mutating call; at the concrete state where
exactly one mutable field (the storage class) differs, the preview run indeed
issues no mutating remote call, but returns changed=false, contradicting the
claim (the source combines the two field diffs with a logical and). -/
theorem preview_single_field_diff_reports_unchanged :
    changedOf (runInvocation c2Params true (quietWorld (some standardBucket))) = some false ∧
    ((runInvocation c2Params true (quietWorld (some standardBucket))).2.1).all
      (fun c => !c.isMutating) = true := by
  decide

/-- A specification for bucket b4 where both mutable fields differ from
`standardBucket`: NEARLINE and versioning on. -/
def c4Params : Params :=
  { name := "b4", hasProjectKey := true, project := some "p", state := "present",
    storage_class := "NEARLINE", location := "us", versioning_enabled := true, force := false }

/-- A world where the bucket exists with STANDARD class and versioning off,
the storage-class update call succeeds, and the versioning patch call fails. -/
def c4World : World :=
  { bucket := some standardBucket, reservedElsewhere := false,
    scUpdateFails := false, verPatchFails := true }

/-- Claim C4 counterexample: with both mutable fields differing, the first
field-update call succeeding and the second failing, the invocation does not
return any (changed, error, result) triple at all: the remote error escapes
as an uncaught exception, so no Result reporting changed=true alongside the
error exists, contrary to the claim. -/
theorem partial_update_failure_returns_no_result :
    (runInvocation c4Params false c4World).2.2 = Except.error Err.other := by
  rfl

/-- Claim C4 amended witness: both fields differ, patch call fails. -/
theorem partial_update_failure_propagates_witness :
    (runInvocation c4Params false c4World).2.2 = Except.error Err.other ∧
    (runInvocation c4Params false c4World).1.bucket =
      some { storage_class := "NEARLINE", location := "us",
             versioning_enabled := false, nonEmpty := false } :=
  partial_update_failure_propagates c4Params c4World standardBucket (by rfl) (by rfl) (by rfl)
    (by decide) (by decide) (by rfl) (by rfl)

/-- Module arguments with no project supplied, targeting state present. -/
def c5Args : ModuleArgs :=
  { name := "b5", project := none, state := some "present", storage_class := none,
    location := none, versioning_enabled := none, force := none }

/-- Expected result dictionary of the create run for `c5Args`. -/
def c5Result : BucketResult :=
  { name := "b5", state := "present", storage_class := "STANDARD",
    versioning_enabled := none, location := "us" }

/-- Claim C5: the claim asserts that with no project supplied the apply run
fails with a validation error before any remote create call; in the code,
`module.params` always contains the `project` key (its declared default is
None), so the guard `project not in params` never fires when entered through
`run_module`: the invocation proceeds to issue the remote create call with
project None and returns success, not the validation error. -/
theorem create_without_project_issues_remote_call :
    (runModule c5Args false (quietWorld none)).2.1 =
      [Call.fetch "b5", Call.create none "b5" "STANDARD" "us" false] ∧
    (runModule c5Args false (quietWorld none)).2.2 = Except.ok (true, "", c5Result) := by
  exact ⟨by decide, by rfl⟩

/-- The Scenario A specification: bucket b1, NEARLINE, us-central1. -/
def c9Params : Params :=
  { name := "b1", hasProjectKey := true, project := some "p", state := "present",
    storage_class := "NEARLINE", location := "us-central1",
    versioning_enabled := false, force := false }

/-- First apply run of `c9Params` against an absent bucket. -/
def c9FirstRun : Out := runInvocation c9Params false (quietWorld none)

/-- Second apply run, from the remote state the first run produced. -/
def c9SecondRun : Out := runInvocation c9Params false c9FirstRun.1

/-- Result of the first (create) run: no `versioning_enabled` key. -/
def c9FirstResult : BucketResult :=
  { name := "b1", state := "present", storage_class := "NEARLINE",
    versioning_enabled := none, location := "us-central1" }

/-- Result of the second (no-op) run: `versioning_enabled` present. -/
def c9SecondResult : BucketResult :=
  { name := "b1", state := "present", storage_class := "NEARLINE",
    versioning_enabled := some false, location := "us-central1" }

/-- Claim C9 counterexample: the claim asserts identical final attributes from
both apply runs; at this concrete input (create then no-op) the first run's
result dictionary lacks the `versioning_enabled` key while the second run's
has it, so the two final attribute records differ. -/
theorem idempotence_attrs_differ :
    c9FirstRun.2.2 = Except.ok (true, "", c9FirstResult) ∧
    c9SecondRun.2.2 = Except.ok (false, "", c9SecondResult) ∧
    c9FirstResult ≠ c9SecondResult := by
  refine ⟨by rfl, by rfl, by decide⟩

/-- A string that begins with a non-empty literal piece is never empty. -/
theorem appended_msg_ne_empty (a b c : String) (ha : 0 < a.length) :
    a ++ b ++ c ≠ "" := by
  intro h
  have hlen := congrArg String.length h
  rw [String.length_append, String.length_append] at hlen
  simp at hlen
  omega

/-- Claim C9 amended: against a quiescent remote system, whenever the first
apply run returns without error and without exception, a second apply run
returns changed=false and no error and leaves the remote state untouched; the
first run's changed flag, when the bucket existed with target present, is
exactly whether some mutable field differed, and in that existing-bucket case
both runs also return identical final attributes.  (After a create or a
delete the two runs' attributes differ, as the counterexample shows.) -/
theorem idempotent_second_run (params : Params) (w w1 : World) (t1 : List Call)
    (c1 : Bool) (r1 : BucketResult)
    (hs : params.state = "present" ∨ params.state = "absent")
    (h1 : runInvocation params false w = (w1, t1, Except.ok (c1, "", r1))) :
    ∃ t2 r2, runInvocation params false w1 = (w1, t2, Except.ok (false, "", r2)) ∧
      (∀ b, w.bucket = some b → params.state = "present" →
        r1 = r2 ∧ c1 = (b.storage_class != params.storage_class ||
                        b.versioning_enabled != params.versioning_enabled)) := by
  rcases hs with hs | hs
  · cases hw : w.bucket with
    | none =>
        simp [runInvocation, bucketPresent, getBucket, createBucket, hs, hw] at h1
        split at h1
        · simp at h1
        · split at h1
          · simp at h1
            obtain ⟨-, -, -, hmsg, -⟩ := h1
            exact absurd hmsg (appended_msg_ne_empty _ _ _ (by decide))
          · simp at h1
            obtain ⟨rfl, rfl, rfl, rfl⟩ := h1
            refine ⟨_, _, second_run_noop_present params _ _ hs rfl rfl rfl, ?_⟩
            intro b0 hb0 hp
            simp [hw] at hb0
    | some b =>
        simp [runInvocation, bucketPresent, getBucket, hs, hw] at h1
        split at h1
        next hcond =>
          simp at h1
          obtain ⟨rfl, rfl, rfl, rfl⟩ := h1
          refine ⟨_, _, second_run_noop_present params w b hs hw hcond.1 hcond.2, ?_⟩
          intro b0 hb0 hp
          simp [hw] at hb0
          subst hb0
          constructor
          · simp [hcond.1, hcond.2]
          · simp [hcond.1, hcond.2]
        next hcond =>
          simp [updateBucket, handleStorageClass, handleVersioning, writeStorageClass,
            writeVersioning, hw] at h1
          split at h1
          · simp at h1
          · split at h1
            next hscsame =>
              split at h1
              next hversame => exact absurd ⟨hscsame, hversame⟩ hcond
              next hverdiff =>
                split at h1
                · simp at h1
                · simp at h1
                  obtain ⟨rfl, rfl, rfl, rfl⟩ := h1
                  refine ⟨_, _,
                    second_run_noop_present params _ _ hs rfl hscsame rfl, ?_⟩
                  intro b0 hb0 hp
                  simp [hw] at hb0
                  subst hb0
                  constructor
                  · simp [hscsame]
                  · have hx : (b.storage_class != params.storage_class ||
                        b.versioning_enabled != params.versioning_enabled) = true := by
                      simp [hverdiff]
                    exact hx.symm
            next hscdiff =>
              split at h1
              · simp at h1
              · split at h1
                next hversame =>
                  simp at h1
                  obtain ⟨rfl, rfl, rfl, rfl⟩ := h1
                  refine ⟨_, _,
                    second_run_noop_present params _ _ hs rfl rfl hversame, ?_⟩
                  intro b0 hb0 hp
                  simp [hw] at hb0
                  subst hb0
                  constructor
                  · simp [hversame]
                  · have hx : (b.storage_class != params.storage_class ||
                        b.versioning_enabled != params.versioning_enabled) = true := by
                      simp [hscdiff]
                    exact hx.symm
                next hverdiff =>
                  split at h1
                  · simp at h1
                  · simp at h1
                    obtain ⟨rfl, rfl, rfl, rfl⟩ := h1
                    refine ⟨_, _,
                      second_run_noop_present params _ _ hs rfl rfl rfl, ?_⟩
                    intro b0 hb0 hp
                    simp [hw] at hb0
                    subst hb0
                    constructor
                    · rfl
                    · have hx : (b.storage_class != params.storage_class ||
                          b.versioning_enabled != params.versioning_enabled) = true := by
                        simp [hscdiff]
                      exact hx.symm
  · cases hw : w.bucket with
    | none =>
        simp [runInvocation, bucketAbsent, getBucket, hs, hw] at h1
        obtain ⟨rfl, rfl, rfl, rfl⟩ := h1
        refine ⟨_, _, second_run_noop_absent params w hs hw, ?_⟩
        intro b0 hb0 hp
        simp [hw] at hb0
    | some b =>
        simp [runInvocation, bucketAbsent, getBucket, deleteBucket, hs, hw] at h1
        split at h1
        · simp at h1
          obtain ⟨rfl, rfl, rfl, rfl⟩ := h1
          refine ⟨_, _, second_run_noop_absent params _ hs rfl, ?_⟩
          intro b0 hb0 hp
          exact absurd (hs.symm.trans hp) (by decide)
        · split at h1
          · simp at h1
            obtain ⟨-, -, -, hmsg, -⟩ := h1
            exact absurd hmsg (appended_msg_ne_empty _ _ _ (by decide))
          · simp at h1
            obtain ⟨rfl, rfl, rfl, rfl⟩ := h1
            refine ⟨_, _, second_run_noop_absent params _ hs rfl, ?_⟩
            intro b0 hb0 hp
            exact absurd (hs.symm.trans hp) (by decide)

/-- The remote state after the first (storage-class-only update) run of
`c9Params` against `standardBucket`. -/
def c9SecondWorld : World :=
  { bucket := some { storage_class := "NEARLINE", location := "us",
                     versioning_enabled := false, nonEmpty := false },
    reservedElsewhere := false, scUpdateFails := false, verPatchFails := false }

/-- The result of that first update run. -/
def c9UpdResult : BucketResult :=
  { name := "b1", state := "present", storage_class := "NEARLINE",
    versioning_enabled := some false, location := "us" }

/-- Claim C9 amended witness: concrete update run followed by a no-op run. -/
theorem idempotent_second_run_witness :
    ∃ t2 r2,
      runInvocation c9Params false c9SecondWorld =
        (c9SecondWorld, t2, Except.ok (false, "", r2)) ∧
      (∀ b, (quietWorld (some standardBucket)).bucket = some b →
        c9Params.state = "present" →
        c9UpdResult = r2 ∧ true = (b.storage_class != c9Params.storage_class ||
                                   b.versioning_enabled != c9Params.versioning_enabled)) :=
  idempotent_second_run c9Params (quietWorld (some standardBucket)) c9SecondWorld
    [Call.fetch "b1", Call.updateField "b1" BField.storage_class] true c9UpdResult
    (Or.inl rfl) (by rfl)

end GSB
